import Mathlib

/-!
Formal model of the filtering-and-aggregation pipeline of `src/ex1.py`
(an interactive sales dashboard over the Online Retail dataset).

Modelling conventions:
* A pandas DataFrame of transaction rows is a `List` of records, in row order.
* Float columns are modelled as rationals.  A pandas `NaN` arising from an
  aggregation (mean of an empty series, `reindex` over an absent label,
  a pivot cell with no data) is modelled as `none : Option ℚ`.
* Nullable raw columns (`CustomerID`, `Description`) are `Option`-valued;
  `dropna` drops the rows where they are `none`.  `astype(int)` on the
  `CustomerID` column is the identity on the model, whose raw values are
  already integers.
* `groupby` over a column sorts the distinct keys ascending (pandas default
  `sort=True`) and drops rows whose key is null; `Series.sort_values` is
  modelled by the stable `List.insertionSort`, so entries with equal values
  keep the grouped table's key order — the stable tie-break the specification
  prescribes for the top-N tables.
-/

/-- Leap-year test of the proleptic Gregorian calendar. -/
def isLeap (y : Nat) : Bool :=
  (y % 4 == 0 && y % 100 != 0) || y % 400 == 0

/-- Month lengths, depending on leapness. -/
def monthLengths (leap : Bool) : List Nat :=
  if leap then [31, 29, 31, 30, 31, 30, 31, 31, 30, 31, 30, 31]
  else [31, 28, 31, 30, 31, 30, 31, 31, 30, 31, 30, 31]

/-- Number of days in the years strictly before year `y` (year 1 is the first). -/
def daysBeforeYear (y : Nat) : Nat :=
  365 * (y - 1) + (y - 1) / 4 - (y - 1) / 100 + (y - 1) / 400

/-- Ordinal of day `d` of month `m` within year `y` (1-based). -/
def dayOfYear (y m d : Nat) : Nat :=
  ((monthLengths (isLeap y)).take (m - 1)).sum + d

/-- Rata-die day number: day 1 is 0001-01-01, which is a Monday. -/
def rataDie (y m d : Nat) : Nat :=
  daysBeforeYear y + dayOfYear y m d

/-- Weekday labels in the order used by the dashboard (`ordem_dias` in the source). -/
def ordem_dias : List String :=
  ["Monday", "Tuesday", "Wednesday", "Thursday", "Friday", "Saturday", "Sunday"]

/-- English month names, as produced by `strftime` with the month-name format. -/
def monthNames : List String :=
  ["January", "February", "March", "April", "May", "June", "July",
   "August", "September", "October", "November", "December"]

/-- A timestamp (the raw `InvoiceDate` column), to minute precision. -/
structure Timestamp where
  year : Nat
  month : Nat
  day : Nat
  hour : Nat
  minute : Nat
deriving DecidableEq, Repr

/-- Weekday name of a timestamp, as `Series.dt.day_name()` yields. -/
def Timestamp.dayNameOf (t : Timestamp) : String :=
  ordem_dias.getD ((rataDie t.year t.month t.day + 6) % 7) ""

/-- Month name of a timestamp, as `strftime` with the month-name format yields. -/
def Timestamp.monthNameOf (t : Timestamp) : String :=
  monthNames.getD (t.month - 1) ""

/-- A plain calendar date (the `Date` column, `InvoiceDate` truncated to day). -/
structure Date where
  year : Nat
  month : Nat
  day : Nat
deriving DecidableEq, Repr

/-- Chronological comparison of plain dates, as Python compares date objects. -/
def Date.leB (a b : Date) : Bool :=
  decide (a.year < b.year) ||
    (decide (a.year = b.year) &&
      (decide (a.month < b.month) ||
        (decide (a.month = b.month) && decide (a.day ≤ b.day))))

/-- Truncation of a timestamp to its plain date (`Series.dt.date`). -/
def Timestamp.dateOf (t : Timestamp) : Date :=
  ⟨t.year, t.month, t.day⟩

/-- A raw row of the Excel source, columns A:H of the Online Retail sheet. -/
structure RawRow where
  invoiceNo : String
  stockCode : String
  description : Option String
  quantity : Int
  invoiceDate : Timestamp
  unitPrice : ℚ
  customerID : Option Int
  country : String
deriving DecidableEq, Repr

/-- A processed record: the raw columns plus the derived feature columns that
`carregar_dados` appends. -/
structure Record extends RawRow where
  total : ℚ
  year : Nat
  month : Nat
  monthName : String
  day : Nat
  hour : Nat
  dayOfWeek : String
  date : Date
deriving DecidableEq, Repr

/-- Feature engineering of `carregar_dados`: `Total = Quantity * UnitPrice`
recomputed from the two raw columns, plus the calendar breakdown of
`InvoiceDate`. -/
def featurize (r : RawRow) : Record :=
  { toRawRow := r
    total := (r.quantity : ℚ) * r.unitPrice
    year := r.invoiceDate.year
    month := r.invoiceDate.month
    monthName := r.invoiceDate.monthNameOf
    day := r.invoiceDate.day
    hour := r.invoiceDate.hour
    dayOfWeek := r.invoiceDate.dayNameOf
    date := r.invoiceDate.dateOf }

/-- Cleaning pipeline of `carregar_dados` (src/ex1.py lines 46-62): drop rows
with a null `CustomerID` or `Description`, drop nonpositive quantities and
nonpositive unit prices, then append the derived columns. -/
def carregar_dados (raw : List RawRow) : List Record :=
  ((((raw.filter fun r => r.customerID.isSome && r.description.isSome)).filter
      fun r => decide (0 < r.quantity)).filter
      fun r => decide (0 < r.unitPrice)).map featurize

/-- Filter Parameters: the sidebar configuration consumed by the filter mask. -/
structure FilterParams where
  dataInicio : Date
  dataFim : Date
  paises : List String
  produtos : List String
  valorMin : ℚ
  valorMax : ℚ
  qtdMin : Int
  qtdMax : Int
deriving DecidableEq, Repr

/-- Membership test of a nullable description in the selected-product list,
as the pandas `isin` test behaves: a null is in no list. -/
def descIsin (produtos : List String) (r : Record) : Bool :=
  match r.description with
  | some d => produtos.contains d
  | none => false

/-- Conjunction of the eight filter conditions of `df_filtrado`
(src/ex1.py lines 372-381). -/
def filtroPred (p : FilterParams) (r : Record) : Bool :=
  Date.leB p.dataInicio r.date && Date.leB r.date p.dataFim &&
  p.paises.contains r.country &&
  descIsin p.produtos r &&
  decide (p.valorMin ≤ r.total) && decide (r.total ≤ p.valorMax) &&
  decide (p.qtdMin ≤ r.quantity) && decide (r.quantity ≤ p.qtdMax)

/-- The FilteredView `df_filtrado`: the rows of the store passing all eight
conditions of the boolean mask. -/
def df_filtrado (df : List Record) (p : FilterParams) : List Record :=
  df.filter (filtroPred p)

/-- Lexicographic comparison of character lists by code point. -/
def charListLe : List Char → List Char → Bool
  | [], _ => true
  | _ :: _, [] => false
  | a :: as, b :: bs =>
    decide (a.toNat < b.toNat) || (decide (a.toNat = b.toNat) && charListLe as bs)

/-- Lexicographic comparison of strings by code point, the order in which
pandas sorts string keys. -/
def strLeB (a b : String) : Bool :=
  charListLe a.data b.data

/-- Distinct product descriptions of the store, sorted (`produtos_unicos`).
The pandas `unique()` skips nulls on an object column only if present; on the
cleaned store every description is non-null, and `filterMap` keeps exactly the
non-null values. -/
def produtos_unicos (df : List Record) : List String :=
  List.insertionSort (fun a b => strLeB a b = true) (df.filterMap (·.description)).dedup

/-- The selected-products list (src/ex1.py lines 325-334): when the
product-filter checkbox is off, every distinct description is selected;
when it is on, the multiselect choice is used as-is. -/
def produtos_selecionados (filtrar_produtos : Bool) (escolha : List String)
    (df : List Record) : List String :=
  if filtrar_produtos then escolha else produtos_unicos df

/-- Mean of a pandas numeric series: `NaN` (here `none`) on an empty series,
otherwise the sum divided by the length. -/
def pandasMean (xs : List ℚ) : Option ℚ :=
  if xs.isEmpty then none else some (xs.sum / xs.length)

/-- The grouped-and-summed series `df.groupby(key)[val].sum()` for a non-null
string key column: one `(key, sum-of-group)` pair per distinct key, keys
sorted ascending (pandas default). -/
def groupbySum (df : List Record) (key : Record → String) (val : Record → ℚ) :
    List (String × ℚ) :=
  (List.insertionSort (fun a b => strLeB a b = true) (df.map key).dedup).map
    fun k => (k, ((df.filter fun r => key r == k).map val).sum)

/-- The KPI bundle of `criar_metricas_kpi` (src/ex1.py lines 84-94). -/
structure Metricas where
  total_vendas : ℚ
  media_transacao : Option ℚ
  total_faturas : Nat
  total_clientes : Nat
  total_produtos : Nat
  total_paises : Nat
  quantidade_total : Int
  ticket_medio : Option ℚ
deriving DecidableEq, Repr

/-- KPI computation of `criar_metricas_kpi`: sums, means, distinct counts
(`nunique`, which skips nulls), and the per-invoice grouped mean
`groupby(InvoiceNo)[Total].sum().mean()`. -/
def criar_metricas_kpi (df : List Record) : Metricas :=
  { total_vendas := (df.map (·.total)).sum
    media_transacao := pandasMean (df.map (·.total))
    total_faturas := (df.map (·.invoiceNo)).dedup.length
    total_clientes := (df.filterMap (·.customerID)).dedup.length
    total_produtos := (df.map (·.stockCode)).dedup.length
    total_paises := (df.map (·.country)).dedup.length
    quantidade_total := (df.map (·.quantity)).sum
    ticket_medio :=
      pandasMean ((groupbySum df (·.invoiceNo) (·.total)).map Prod.snd) }

/-- Modelled from the spec: the average-order-value KPI described as grouping
the records by invoice identifier (distinct invoices in order of appearance),
summing each group's line totals, then averaging those sums.  To be compared
with the `ticket_medio` field computed by `criar_metricas_kpi`. -/
def spec_average_order_value (df : List Record) : Option ℚ :=
  pandasMean ((df.map (·.invoiceNo)).dedup.map
    fun k => ((df.filter fun r => r.invoiceNo == k).map (·.total)).sum)

/-- The day-of-week grouped table `vendas_dia` of `criar_grafico_dia_semana`
(src/ex1.py lines 221-223): `groupby(DayOfWeek)[Total].sum()` reindexed along
`ordem_dias`.  `reindex` yields the group sum for a label with at least one
matching row and `NaN` (here `none`) for a label with none. -/
def vendas_dia (df : List Record) : List (String × Option ℚ) :=
  ordem_dias.map fun d =>
    (d, if df.any (fun r => r.dayOfWeek == d)
        then some (((df.filter fun r => r.dayOfWeek == d).map (·.total)).sum)
        else none)

/-- Column labels of the heatmap pivot: the distinct hour values occurring in
the view, sorted ascending (the pivot has no column for an absent hour). -/
def heatmap_hours (df : List Record) : List Nat :=
  List.insertionSort (fun a b => a ≤ b) (df.map (·.hour)).dedup

/-- The pivot table of `criar_heatmap_vendas` (src/ex1.py lines 250-254):
`groupby([DayOfWeek, Hour])[Total].sum()`, pivoted with day rows and hour
columns, reindexed along `ordem_dias`.  Rows are the seven weekday labels;
columns are only the hours present in the view; a cell whose day-hour pair
matches no row is `NaN` (here `none`). -/
def heatmap_pivot (df : List Record) : List (String × List (Nat × Option ℚ)) :=
  ordem_dias.map fun d =>
    (d, (heatmap_hours df).map fun h =>
      (h, if df.any (fun r => r.dayOfWeek == d && decide (r.hour = h))
          then some (((df.filter fun r =>
              r.dayOfWeek == d && decide (r.hour = h)).map (·.total)).sum)
          else none))

/-- Data series fed to the transaction-value histogram: the totals at most
1000 (rows above the cutoff are excluded, not clipped). -/
def dist_valores (df : List Record) : List ℚ :=
  (df.filter fun r => decide (r.total ≤ 1000)).map (·.total)

/-- Data series fed to the quantity histogram: the quantities at most 50. -/
def dist_quantidades (df : List Record) : List Int :=
  (df.filter fun r => decide (r.quantity ≤ 50)).map (·.quantity)

/-- Outcome of the page body on a given FilteredView: the script warns and
stops when the view is empty (src/ex1.py lines 384-386), and otherwise
renders the KPI bundle and the charts. -/
inductive PageResult where
  | halted : PageResult
  | rendered : Metricas → PageResult
deriving DecidableEq, Repr

/-- Main-page control flow after filtering: `st.stop()` on an empty view,
otherwise the aggregations run on the view. -/
def pagina (dfFiltrado : List Record) : PageResult :=
  if dfFiltrado.isEmpty then PageResult.halted
  else PageResult.rendered (criar_metricas_kpi dfFiltrado)

/-- Helper building a raw row with non-null customer and description. -/
def mkRaw (inv desc : String) (q : Int) (price : ℚ) (ts : Timestamp)
    (cid : Int) (pais : String) : RawRow :=
  { invoiceNo := inv, stockCode := desc, description := some desc,
    quantity := q, invoiceDate := ts, unitPrice := price,
    customerID := some cid, country := pais }

/-- Monday 2010-12-06, 10:00. -/
def tsMonday : Timestamp := ⟨2010, 12, 6, 10, 0⟩

/-- A small cleaned store: invoice A with line totals 10 and 20, invoice B
with line total 5, all on a Monday at hour 10. -/
def exStore : List Record :=
  carregar_dados
    [mkRaw "A" "p1" 1 10 tsMonday 1 "United Kingdom",
     mkRaw "A" "p2" 1 20 tsMonday 1 "United Kingdom",
     mkRaw "B" "p3" 1 5 tsMonday 2 "United Kingdom"]

/-- Parameters covering every record of `exStore`. -/
def pTudo : FilterParams :=
  ⟨⟨2010, 1, 1⟩, ⟨2011, 12, 31⟩, ["United Kingdom"], ["p1", "p2", "p3"],
    0, 10000, 0, 100⟩

/-- The first record of `exStore`, written out field by field. -/
def rec1 : Record :=
  { invoiceNo := "A", stockCode := "p1", description := some "p1",
    quantity := 1, invoiceDate := tsMonday, unitPrice := 10,
    customerID := some 1, country := "United Kingdom",
    total := 10, year := 2010, month := 12, monthName := "December",
    day := 6, hour := 10, dayOfWeek := "Monday", date := ⟨2010, 12, 6⟩ }

/-- The second record of `exStore`, written out field by field. -/
def rec2 : Record :=
  { invoiceNo := "A", stockCode := "p2", description := some "p2",
    quantity := 1, invoiceDate := tsMonday, unitPrice := 20,
    customerID := some 1, country := "United Kingdom",
    total := 20, year := 2010, month := 12, monthName := "December",
    day := 6, hour := 10, dayOfWeek := "Monday", date := ⟨2010, 12, 6⟩ }

/-- The third record of `exStore`, written out field by field. -/
def rec3 : Record :=
  { invoiceNo := "B", stockCode := "p3", description := some "p3",
    quantity := 1, invoiceDate := tsMonday, unitPrice := 5,
    customerID := some 2, country := "United Kingdom",
    total := 5, year := 2010, month := 12, monthName := "December",
    day := 6, hour := 10, dayOfWeek := "Monday", date := ⟨2010, 12, 6⟩ }

theorem sum_map_add (f g : String → ℚ) : ∀ l : List String,
    (l.map fun x => f x + g x).sum = (l.map f).sum + (l.map g).sum := by
  intro l
  induction l with
  | nil => simp
  | cons a t ih =>
    simp only [List.map_cons, List.sum_cons, ih]
    ring

theorem sum_map_ite_eq (v : ℚ) (c : String) :
    ∀ ks : List String, ks.Nodup → c ∈ ks →
      (ks.map fun x => if c = x then v else 0).sum = v := by
  intro ks
  induction ks with
  | nil => intro _ hk; cases hk
  | cons a t ih =>
    intro hnd hk
    obtain ⟨ha, hndt⟩ := List.nodup_cons.mp hnd
    rcases List.mem_cons.mp hk with rfl | hkt
    · have hz : (t.map fun x => if c = x then v else 0).sum = 0 := by
        apply List.sum_eq_zero
        intro x hx
        rcases List.mem_map.mp hx with ⟨y, hy, rfl⟩
        rw [if_neg]
        intro h
        exact ha (h ▸ hy)
      rw [List.map_cons, List.sum_cons, if_pos rfl, hz, add_zero]
    · have hca : c ≠ a := by
        intro h
        exact ha (h ▸ hkt)
      simp only [List.map_cons, List.sum_cons, if_neg hca, zero_add]
      exact ih hndt hkt

theorem partition_sum (key : Record → String) (val : Record → ℚ) :
    ∀ (rs : List Record) (ks : List String), ks.Nodup →
      (∀ r ∈ rs, key r ∈ ks) →
      (ks.map fun k => ((rs.filter fun r => key r == k).map val).sum).sum
        = (rs.map val).sum := by
  intro rs
  induction rs with
  | nil => intro ks _ _; simp
  | cons r t ih =>
    intro ks hnd hcov
    have hmem : key r ∈ ks := hcov r (List.mem_cons_self r t)
    have hcovt : ∀ x ∈ t, key x ∈ ks := fun x hx =>
      hcov x (List.mem_cons_of_mem r hx)
    have hsplit : ∀ k, (((r :: t).filter fun x => key x == k).map val).sum
        = (if key r = k then val r else 0)
          + ((t.filter fun x => key x == k).map val).sum := by
      intro k
      by_cases h : key r = k
      · simp [List.filter_cons, h]
      · simp [List.filter_cons, h]
    have hmapeq : (ks.map fun k => (((r :: t).filter fun x => key x == k).map val).sum)
        = ks.map fun k => (if key r = k then val r else 0)
            + ((t.filter fun x => key x == k).map val).sum := by
      apply List.map_congr_left
      intro k _
      exact hsplit k
    rw [hmapeq, sum_map_add, sum_map_ite_eq (val r) (key r) ks hnd hmem,
      ih ks hnd hcovt]
    simp

theorem groupbySum_snd_map (df : List Record) (key : Record → String)
    (val : Record → ℚ) :
    (groupbySum df key val).map Prod.snd
      = (List.insertionSort (fun a b => strLeB a b = true) (df.map key).dedup).map
          fun k => ((df.filter fun r => key r == k).map val).sum := by
  rw [groupbySum, List.map_map]
  rfl

theorem groupbySum_snd_sum (df : List Record) (key : Record → String)
    (val : Record → ℚ) :
    ((groupbySum df key val).map Prod.snd).sum = (df.map val).sum := by
  rw [groupbySum_snd_map]
  rw [List.Perm.sum_eq
    ((List.perm_insertionSort (fun a b => strLeB a b = true) (df.map key).dedup).map _)]
  exact partition_sum key val df (df.map key).dedup (List.nodup_dedup _)
    fun r hr => List.mem_dedup.mpr (List.mem_map_of_mem key hr)

theorem groupbySum_length (df : List Record) (key : Record → String)
    (val : Record → ℚ) :
    (groupbySum df key val).length = (df.map key).dedup.length := by
  rw [groupbySum, List.length_map, List.length_insertionSort]

theorem pandasMean_congr {l l' : List ℚ} (hs : l.sum = l'.sum)
    (hl : l.length = l'.length) : pandasMean l = pandasMean l' := by
  have he : l.isEmpty = l'.isEmpty := by
    cases l with
    | nil =>
      cases l' with
      | nil => rfl
      | cons b u => simp at hl
    | cons a s =>
      cases l' with
      | nil => simp at hl
      | cons b u => rfl
  rw [pandasMean, pandasMean, hs, hl, he]

theorem pandasMean_eq_some {l : List ℚ} (h : l ≠ []) :
    pandasMean l = some (l.sum / l.length) := by
  rw [pandasMean, if_neg]
  simpa using h

theorem mem_carregar_dados {raw : List RawRow} {r : Record}
    (h : r ∈ carregar_dados raw) :
    ∃ w ∈ raw, r = featurize w ∧ w.customerID.isSome = true ∧
      w.description.isSome = true ∧ 0 < w.quantity ∧ 0 < w.unitPrice := by
  rw [carregar_dados] at h
  rcases List.mem_map.mp h with ⟨w, hw, rfl⟩
  rcases List.mem_filter.mp hw with ⟨hw2, hp⟩
  rcases List.mem_filter.mp hw2 with ⟨hw3, hq⟩
  rcases List.mem_filter.mp hw3 with ⟨hw4, hcd⟩
  rcases Bool.and_eq_true_iff.mp hcd with ⟨hc, hd⟩
  exact ⟨w, hw4, rfl, hc, hd, of_decide_eq_true hq, of_decide_eq_true hp⟩

/-- C1: for every Record Store built by the cleaning pipeline and every
Filter Parameters value, the FilteredView is a sublist (hence a subset) of
the store, and every record in it independently satisfies the date predicate
(compared on the record's plain date, the truncation of its timestamp,
inclusively on both ends), the country and product inclusion predicates, and
both numeric range predicates inclusively on both bounds. -/
theorem claim_C1_filter_subset_and_predicates (raw : List RawRow)
    (p : FilterParams) :
    (df_filtrado (carregar_dados raw) p).Sublist (carregar_dados raw) ∧
    ∀ r ∈ df_filtrado (carregar_dados raw) p,
      r.date = r.invoiceDate.dateOf ∧
      Date.leB p.dataInicio r.date = true ∧ Date.leB r.date p.dataFim = true ∧
      r.country ∈ p.paises ∧ descIsin p.produtos r = true ∧
      p.valorMin ≤ r.total ∧ r.total ≤ p.valorMax ∧
      p.qtdMin ≤ r.quantity ∧ r.quantity ≤ p.qtdMax := by
  refine ⟨List.filter_sublist _, ?_⟩
  intro r hr
  rcases List.mem_filter.mp hr with ⟨hmem, hpred⟩
  rw [filtroPred] at hpred
  simp only [Bool.and_eq_true, decide_eq_true_eq] at hpred
  obtain ⟨⟨⟨⟨⟨⟨⟨h1, h2⟩, h3⟩, h4⟩, h5⟩, h6⟩, h7⟩, h8⟩ := hpred
  obtain ⟨w, _, rfl, -, -, -, -⟩ := mem_carregar_dados hmem
  exact ⟨rfl, h1, h2, by simpa using h3, h4, h5, h6, h7, h8⟩

/-- C2: after cleaning, every record of the store has a non-null customer
identifier and a non-null description, a strictly positive quantity and unit
price, and a line total equal to quantity times unit price as recomputed by
the pipeline; the same invariants hold for every FilteredView drawn from the
store. -/
theorem claim_C2_cleaning_invariants (raw : List RawRow) (p : FilterParams) :
    (∀ r ∈ carregar_dados raw,
      r.customerID.isSome = true ∧ r.description.isSome = true ∧
      0 < r.quantity ∧ 0 < r.unitPrice ∧
      r.total = (r.quantity : ℚ) * r.unitPrice) ∧
    ∀ r ∈ df_filtrado (carregar_dados raw) p,
      r.customerID.isSome = true ∧ r.description.isSome = true ∧
      0 < r.quantity ∧ 0 < r.unitPrice ∧
      r.total = (r.quantity : ℚ) * r.unitPrice := by
  have main : ∀ r ∈ carregar_dados raw,
      r.customerID.isSome = true ∧ r.description.isSome = true ∧
      0 < r.quantity ∧ 0 < r.unitPrice ∧
      r.total = (r.quantity : ℚ) * r.unitPrice := by
    intro r hr
    obtain ⟨w, _, rfl, hc, hd, hq, hp⟩ := mem_carregar_dados hr
    exact ⟨hc, hd, hq, hp, rfl⟩
  exact ⟨main, fun r hr => main r (List.mem_of_mem_filter hr)⟩

theorem exStore_eq : exStore = [rec1, rec2, rec3] := by
  norm_num [exStore, carregar_dados, mkRaw, featurize, tsMonday,
    rec1, rec2, rec3, Timestamp.dayNameOf, Timestamp.monthNameOf,
    Timestamp.dateOf, rataDie, daysBeforeYear, dayOfYear, monthLengths,
    isLeap, ordem_dias, monthNames]

theorem pandasMean_perm {l l' : List ℚ} (h : l.Perm l') :
    pandasMean l = pandasMean l' :=
  pandasMean_congr h.sum_eq h.length_eq

/-- C3: for every FilteredView the average-order-value KPI `ticket_medio`
equals the mean over invoices of the per-invoice summed line totals (the
spec-side grouped formulation), and it is in general not the mean of the
individual line totals: on the store with invoices A = [10, 20] and B = [5]
the former is 35/2 = 17.5 and the latter is 35/3. -/
theorem claim_C3_average_order_value (df : List Record) :
    (criar_metricas_kpi df).ticket_medio = spec_average_order_value df ∧
    (criar_metricas_kpi exStore).ticket_medio = some (35 / 2) ∧
    (criar_metricas_kpi exStore).media_transacao = some (35 / 3) ∧
    (criar_metricas_kpi exStore).ticket_medio
      ≠ (criar_metricas_kpi exStore).media_transacao := by
  have h1 : (criar_metricas_kpi exStore).ticket_medio = some (35 / 2) := by
    rw [exStore_eq]
    simp +decide [criar_metricas_kpi, groupbySum, pandasMean, rec1, rec2, rec3,
      List.insertionSort, List.orderedInsert, strLeB, charListLe, List.dedup,
      List.pwFilter, List.filter]
    norm_num
  have h2 : (criar_metricas_kpi exStore).media_transacao = some (35 / 3) := by
    rw [exStore_eq]
    simp [criar_metricas_kpi, pandasMean, rec1, rec2, rec3]
    norm_num
  refine ⟨?_, h1, h2, ?_⟩
  · show pandasMean _ = pandasMean _
    rw [groupbySum_snd_map]
    exact pandasMean_perm ((List.perm_insertionSort _ _).map _)
  · rw [h1, h2]
    intro h
    rw [Option.some_inj] at h
    norm_num at h

/-- C8: filtering is idempotent — applying `df_filtrado` with the same
parameters to a FilteredView it produced returns that view unchanged — and an
all-inclusive parameter set (a date range spanning the store, every country
and every product selected, numeric ranges covering every value) returns the
full store. -/
theorem claim_C8_idempotent_and_all_inclusive (df : List Record)
    (p q : FilterParams)
    (hq : ∀ r ∈ df, Date.leB q.dataInicio r.date = true ∧
      Date.leB r.date q.dataFim = true ∧ r.country ∈ q.paises ∧
      descIsin q.produtos r = true ∧
      q.valorMin ≤ r.total ∧ r.total ≤ q.valorMax ∧
      q.qtdMin ≤ r.quantity ∧ r.quantity ≤ q.qtdMax) :
    df_filtrado (df_filtrado df p) p = df_filtrado df p ∧
    df_filtrado df q = df := by
  constructor
  · rw [df_filtrado, df_filtrado, List.filter_eq_self]
    intro r hr
    exact (List.mem_filter.mp hr).2
  · rw [df_filtrado, List.filter_eq_self]
    intro r hr
    obtain ⟨h1, h2, h3, h4, h5, h6, h7, h8⟩ := hq r hr
    rw [filtroPred]
    simp only [Bool.and_eq_true, decide_eq_true_eq]
    refine ⟨⟨⟨⟨⟨⟨⟨h1, h2⟩, ?_⟩, h4⟩, h5⟩, h6⟩, h7⟩, h8⟩
    simpa using h3

theorem claim_C8_idempotent_and_all_inclusive_witness :
    (∀ r ∈ [rec1, rec2, rec3], Date.leB pTudo.dataInicio r.date = true ∧
      Date.leB r.date pTudo.dataFim = true ∧ r.country ∈ pTudo.paises ∧
      descIsin pTudo.produtos r = true ∧
      pTudo.valorMin ≤ r.total ∧ r.total ≤ pTudo.valorMax ∧
      pTudo.qtdMin ≤ r.quantity ∧ r.quantity ≤ pTudo.qtdMax) ∧
    df_filtrado (df_filtrado [rec1, rec2, rec3] pTudo) pTudo
        = df_filtrado [rec1, rec2, rec3] pTudo ∧
    df_filtrado [rec1, rec2, rec3] pTudo = [rec1, rec2, rec3] :=
  ⟨by decide,
    claim_C8_idempotent_and_all_inclusive [rec1, rec2, rec3] pTudo pTudo
      (by decide)⟩

/-- C9: the product predicate follows the conditional-default convention:
when the product filter is inactive, `produtos_selecionados` is the full
distinct-description list and every record of the cleaned store passes the
description test whatever the multiselect choice was; when the filter is
active with an empty selection, the FilteredView is empty regardless of the
remaining parameters. -/
theorem claim_C9_product_filter_convention (raw : List RawRow)
    (escolha : List String) (p : FilterParams) :
    (∀ r ∈ carregar_dados raw,
      descIsin (produtos_selecionados false escolha (carregar_dados raw)) r
        = true) ∧
    df_filtrado (carregar_dados raw)
      { p with
        produtos := produtos_selecionados true [] (carregar_dados raw) }
      = [] := by
  constructor
  · intro r hr
    obtain ⟨w, hw, hrw, hc, hd, hqt, hpr⟩ := mem_carregar_dados hr
    obtain ⟨d, hdd⟩ := Option.isSome_iff_exists.mp hd
    have hdesc : r.description = some d := by rw [hrw]; exact hdd
    rw [produtos_selecionados, if_neg (by simp), descIsin, hdesc]
    have hmem : d ∈ produtos_unicos (carregar_dados raw) := by
      rw [produtos_unicos, (List.perm_insertionSort _ _).mem_iff,
        List.mem_dedup, List.mem_filterMap]
      exact ⟨r, hr, hdesc⟩
    simpa using hmem
  · rw [df_filtrado, List.filter_eq_nil_iff]
    intro r hr
    rw [produtos_selecionados, if_pos rfl]
    cases h : r.description <;>
      simp [filtroPred, descIsin, h]

/-- C4 (amended): for every FilteredView, the empty one included, the
day-of-week table has exactly 7 rows labelled Monday through Sunday in that
order; a day with at least one matching record carries the sum of that day's
line totals, and a day with no matching record carries a missing value (a
pandas `NaN` from `reindex`), not the value zero. -/
theorem claim_C4_day_of_week_rows (df : List Record) :
    (vendas_dia df).length = 7 ∧
    (vendas_dia df).map Prod.fst = ordem_dias ∧
    ∀ pr ∈ vendas_dia df,
      (pr.2 = none ↔ ∀ r ∈ df, r.dayOfWeek ≠ pr.1) ∧
      ∀ s, pr.2 = some s →
        s = ((df.filter fun r => r.dayOfWeek == pr.1).map (·.total)).sum := by
  refine ⟨by simp [vendas_dia, ordem_dias], ?_, ?_⟩
  · rw [vendas_dia, List.map_map]
    exact (List.map_congr_left fun d _ => rfl).trans (List.map_id _)
  intro pr hpr
  rcases List.mem_map.mp hpr with ⟨d, hd, rfl⟩
  by_cases h : df.any (fun r => r.dayOfWeek == d) = true
  · rcases List.any_eq_true.mp h with ⟨x, hx, hxd⟩
    rw [beq_iff_eq] at hxd
    simp only [if_pos h]
    constructor
    · constructor
      · intro hnone
        simp at hnone
      · intro hall
        exact absurd hxd (hall x hx)
    · intro s hs
      rw [Option.some_inj] at hs
      exact hs.symm
  · simp only [if_neg h]
    constructor
    · constructor
      · intro _ r hr hrd
        exact h (List.any_eq_true.mpr ⟨r, hr, beq_iff_eq.mpr hrd⟩)
      · intro _
        trivial
    · intro s hs
      cases hs

/-- C4 (counterexample): on the one-record Monday store the Tuesday row of
the day-of-week table carries the missing value `none`, not the value zero,
refuting the zero-fill part of the claim. -/
theorem claim_C4_zero_fill_counterexample :
    vendas_dia [rec1]
      = [("Monday", some 10), ("Tuesday", none), ("Wednesday", none),
         ("Thursday", none), ("Friday", none), ("Saturday", none),
         ("Sunday", none)] ∧
    (none : Option ℚ) ≠ some 0 := by
  constructor
  · simp +decide [vendas_dia, ordem_dias, rec1, List.filter]
  · simp

/-- C5 (amended): for every FilteredView the heatmap pivot has exactly the 7
weekday rows in Monday..Sunday order, but its columns are only the distinct
hours occurring in the view (so the grid is 7 x 24 exactly when all 24 hours
occur); a cell with at least one matching record carries the day-hour sum of
line totals, and a cell with none carries a missing value, not zero. -/
theorem claim_C5_heatmap_grid (df : List Record) :
    (heatmap_pivot df).map Prod.fst = ordem_dias ∧
    (∀ row ∈ heatmap_pivot df, row.2.map Prod.fst = heatmap_hours df) ∧
    (∀ h ∈ heatmap_hours df, ∃ r ∈ df, r.hour = h) ∧
    ∀ row ∈ heatmap_pivot df, ∀ cell ∈ row.2,
      (cell.2 = none ↔ ∀ r ∈ df, ¬(r.dayOfWeek = row.1 ∧ r.hour = cell.1)) ∧
      ∀ s, cell.2 = some s →
        s = ((df.filter fun r =>
          r.dayOfWeek == row.1 && decide (r.hour = cell.1)).map (·.total)).sum := by
  refine ⟨?_, ?_, ?_, ?_⟩
  · rw [heatmap_pivot, List.map_map]
    exact (List.map_congr_left fun d _ => rfl).trans (List.map_id _)
  · intro row hrow
    rcases List.mem_map.mp hrow with ⟨d, hd, rfl⟩
    rw [List.map_map]
    exact (List.map_congr_left fun h _ => rfl).trans (List.map_id _)
  · intro h hh
    rw [heatmap_hours, (List.perm_insertionSort _ _).mem_iff,
      List.mem_dedup] at hh
    rcases List.mem_map.mp hh with ⟨r, hr, rfl⟩
    exact ⟨r, hr, rfl⟩
  · intro row hrow cell hcell
    rcases List.mem_map.mp hrow with ⟨d, hd, rfl⟩
    rcases List.mem_map.mp hcell with ⟨h, hh, rfl⟩
    by_cases hany :
        (df.any fun r => r.dayOfWeek == d && decide (r.hour = h)) = true
    · rcases List.any_eq_true.mp hany with ⟨x, hx, hxc⟩
      rw [Bool.and_eq_true, beq_iff_eq, decide_eq_true_eq] at hxc
      simp only [if_pos hany]
      constructor
      · constructor
        · intro hnone
          simp at hnone
        · intro hall
          exact absurd ⟨hxc.1, hxc.2⟩ (hall x hx)
      · intro s hs
        rw [Option.some_inj] at hs
        exact hs.symm
    · simp only [if_neg hany]
      constructor
      · constructor
        · intro _ r hr hrc
          exact hany (List.any_eq_true.mpr ⟨r, hr, by
            rw [Bool.and_eq_true, beq_iff_eq, decide_eq_true_eq]
            exact ⟨hrc.1, hrc.2⟩⟩)
        · intro _
          trivial
      · intro s hs
        cases hs

/-- C5 (counterexample): on the one-record Monday-10h store the pivot has a
single column (hour 10), each of its 7 rows has length 1 rather than 24, and
the Tuesday-10h cell is the missing value `none`, not zero: the complete
zero-filled 7 x 24 grid claim fails. -/
theorem claim_C5_grid_counterexample :
    heatmap_hours [rec1] = [10] ∧
    (heatmap_hours [rec1]).length ≠ 24 ∧
    (heatmap_pivot [rec1]).map (fun row => row.2.length)
      = [1, 1, 1, 1, 1, 1, 1] ∧
    (heatmap_pivot [rec1])[1]? = some ("Tuesday", [(10, none)]) := by
  refine ⟨by decide, by decide, by decide, by decide⟩

/-- C7 (amended): on the empty FilteredView the dashboard warns and halts
before invoking any aggregation; applied directly to an empty view, the KPI
sums and distinct counts are zero, both means are missing values (pandas NaN,
not an explicit marker), both histogram data series are empty, the
day-of-week table holds seven missing values, and the heatmap pivot has its
7 rows but no columns at all. -/
theorem claim_C7_empty_view_behaviour :
    pagina [] = PageResult.halted ∧
    (criar_metricas_kpi []).total_vendas = 0 ∧
    (criar_metricas_kpi []).quantidade_total = 0 ∧
    (criar_metricas_kpi []).total_faturas = 0 ∧
    (criar_metricas_kpi []).total_clientes = 0 ∧
    (criar_metricas_kpi []).total_produtos = 0 ∧
    (criar_metricas_kpi []).total_paises = 0 ∧
    (criar_metricas_kpi []).media_transacao = none ∧
    (criar_metricas_kpi []).ticket_medio = none ∧
    dist_valores [] = [] ∧ dist_quantidades [] = [] ∧
    (vendas_dia ([] : List Record)).map Prod.snd = List.replicate 7 none ∧
    (heatmap_pivot ([] : List Record)).map (fun row => row.2.length)
      = List.replicate 7 0 := by
  refine ⟨rfl, rfl, rfl, rfl, rfl, rfl, rfl, rfl, rfl, rfl, rfl,
    by decide, by decide⟩

/-- C7 (counterexample): the empty FilteredView does not reach the
aggregations at all — the page halts at the empty-view guard — and the
heatmap pivot applied to the empty view has rows of zero columns, not an
all-zero 7 x 24 grid, so the claim as stated fails. -/
theorem claim_C7_empty_view_counterexample :
    pagina [] = PageResult.halted ∧
    pagina [] ≠ PageResult.rendered (criar_metricas_kpi []) ∧
    heatmap_hours ([] : List Record) = [] ∧
    (heatmap_hours ([] : List Record)).length ≠ 24 := by
  refine ⟨rfl, by decide, rfl, by decide⟩

theorem nodup_invoice_iff_singletons (df : List Record) :
    (df.map (·.invoiceNo)).Nodup ↔
      ∀ r ∈ df, (df.filter fun x => x.invoiceNo == r.invoiceNo).length = 1 := by
  rw [List.nodup_iff_count_eq_one]
  constructor
  · intro h r hr
    have hc := h r.invoiceNo (List.mem_map_of_mem _ hr)
    rwa [List.count, List.countP_map, List.countP_eq_length_filter] at hc
  · intro h a ha
    rcases List.mem_map.mp ha with ⟨r, hr, rfl⟩
    rw [List.count, List.countP_map, List.countP_eq_length_filter]
    exact h r hr

/-- C10: for every non-empty FilteredView drawn from the cleaned store — so
with every line total strictly positive — the average-order-value KPI is at
least the mean-of-line-totals KPI, with equality exactly when every invoice
of the view consists of a single line item: the same positive total sum is
divided by the invoice count, which never exceeds the line count. -/
theorem claim_C10_aov_at_least_mean (df : List Record) (hne : df ≠ [])
    (hpos : ∀ r ∈ df, 0 < r.total) :
    ∃ t m : ℚ, (criar_metricas_kpi df).ticket_medio = some t ∧
      (criar_metricas_kpi df).media_transacao = some m ∧ m ≤ t ∧
      (t = m ↔ ∀ r ∈ df,
        (df.filter fun x => x.invoiceNo == r.invoiceNo).length = 1) := by
  have hmapne : df.map (fun r => r.total) ≠ [] := by
    intro h
    exact hne (by simpa using congrArg List.length h)
  have hSpos : (0 : ℚ) < (df.map (·.total)).sum := by
    apply List.sum_pos
    · intro x hx
      rcases List.mem_map.mp hx with ⟨r, hr, rfl⟩
      exact hpos r hr
    · exact hmapne
  have hdne : (df.map (·.invoiceNo)).dedup ≠ [] := by
    rw [Ne, List.dedup_eq_nil]
    intro h
    exact hne (by simpa using congrArg List.length h)
  have hkpos : 0 < (df.map (·.invoiceNo)).dedup.length :=
    List.length_pos.mpr hdne
  have hnpos : 0 < df.length := List.length_pos.mpr hne
  have hkn : (df.map (·.invoiceNo)).dedup.length ≤ df.length := by
    have h1 := (List.dedup_sublist (df.map (·.invoiceNo))).length_le
    simpa using h1
  have hkQ : (0 : ℚ) < ((df.map (·.invoiceNo)).dedup.length : ℚ) := by
    exact_mod_cast hkpos
  have hnQ : (0 : ℚ) < (df.length : ℚ) := by exact_mod_cast hnpos
  have hknQ : ((df.map (·.invoiceNo)).dedup.length : ℚ) ≤ (df.length : ℚ) := by
    exact_mod_cast hkn
  have hgne : (groupbySum df (·.invoiceNo) (·.total)).map Prod.snd ≠ [] := by
    apply List.length_pos.mp
    rw [List.length_map, groupbySum_length]
    exact hkpos
  have hticket : (criar_metricas_kpi df).ticket_medio
      = some ((df.map (·.total)).sum
          / ((df.map (·.invoiceNo)).dedup.length : ℚ)) := by
    show pandasMean _ = _
    rw [pandasMean_eq_some hgne, groupbySum_snd_sum, List.length_map,
      groupbySum_length]
  have hmedia : (criar_metricas_kpi df).media_transacao
      = some ((df.map (·.total)).sum / (df.length : ℚ)) := by
    show pandasMean _ = _
    rw [pandasMean_eq_some hmapne, List.length_map]
  refine ⟨_, _, hticket, hmedia, ?_, ?_⟩
  · exact div_le_div_of_nonneg_left hSpos.le hkQ hknQ
  · rw [← nodup_invoice_iff_singletons]
    constructor
    · intro heq
      have h1 : (df.map (·.total)).sum * (df.length : ℚ)
          = (df.map (·.total)).sum
            * ((df.map (·.invoiceNo)).dedup.length : ℚ) :=
        (div_eq_div_iff hkQ.ne' hnQ.ne').mp heq
      have h2 : (df.length : ℚ)
          = ((df.map (·.invoiceNo)).dedup.length : ℚ) :=
        mul_left_cancel₀ hSpos.ne' h1
      have h3 : (df.map (·.invoiceNo)).dedup.length
          = (df.map (·.invoiceNo)).length := by
        have : df.length = (df.map (·.invoiceNo)).dedup.length := by
          exact_mod_cast h2
        simpa using this.symm
      exact List.dedup_eq_self.mp
        ((List.dedup_sublist _).eq_of_length h3)
    · intro hnd
      have h1 : (df.map (·.invoiceNo)).dedup = df.map (·.invoiceNo) :=
        List.dedup_eq_self.mpr hnd
      rw [h1, List.length_map]

theorem claim_C10_aov_at_least_mean_witness :
    ([rec1, rec2, rec3] ≠ ([] : List Record) ∧
      ∀ r ∈ [rec1, rec2, rec3], 0 < r.total) ∧
    ∃ t m : ℚ,
      (criar_metricas_kpi [rec1, rec2, rec3]).ticket_medio = some t ∧
      (criar_metricas_kpi [rec1, rec2, rec3]).media_transacao = some m ∧
      m ≤ t ∧ (t = m ↔ ∀ r ∈ [rec1, rec2, rec3],
        ([rec1, rec2, rec3].filter
          fun x => x.invoiceNo == r.invoiceNo).length = 1) :=
  ⟨⟨by decide, by decide⟩,
    claim_C10_aov_at_least_mean [rec1, rec2, rec3] (by decide) (by decide)⟩
